import Mathlib

/-!
Shallow embedding of the state-mutating core of
`src/ESP8266_Neopixel_Controller.ino`: palette store, command processor,
click navigator, and the frame-reset portion of the main loop. Hardware
side effects (serial prints, FastLED output, WiFi/MQTT transport) carry no
device state of their own and are omitted; the EEPROM commit result is
modelled by the boolean `commitOk` input on the machine state, and the last
committed record is carried in the `stored` field.
-/

/-- Model of `#define COLOR_COUNT 10`: maximum number of saved colors. -/
def COLOR_COUNT : Nat := 10

/-- Model of `#define BUTTON_SINGLE_CLICK 1`. -/
def BUTTON_SINGLE_CLICK : Nat := 1

/-- Model of `#define BUTTON_DOUBLE_CLICK 2`. -/
def BUTTON_DOUBLE_CLICK : Nat := 2

/-- Model of `#define BUTTON_LONG_CLICK 3`. -/
def BUTTON_LONG_CLICK : Nat := 3

/-- Model of `enum TProgram_States {NEOPIXEL_OFF, NEOPIXEL_COLOR, NEOPIXEL_EFFECT}`. -/
inductive TProgram_States where
  | NEOPIXEL_OFF
  | NEOPIXEL_COLOR
  | NEOPIXEL_EFFECT
deriving DecidableEq, Repr

/-- Model of `colorType` (lines 140-143): `uint8_t rgb[3]` flattened into three
byte fields plus the brightness byte. -/
structure colorType where
  rgb0 : Nat
  rgb1 : Nat
  rgb2 : Nat
  brtns : Nat
deriving DecidableEq, Repr, Inhabited

/-- Model of `npControllerSettingType` (lines 146-151). -/
structure npControllerSettingType where
  colorCount : Nat
  programState : TProgram_States
  activeColor : Nat
  activeEffect : Nat
deriving DecidableEq, Repr

/-- RAM state of the controller relevant to the claims: the global
`npControllerSetting`, the `colors` array (length `COLOR_COUNT + 1`, the last
slot being the scratch slot), the `changeNeopixel` dirty flag, the
`actualFrame` / `lastNeopixelRefresh` animation counters, the last record
committed to EEPROM (`stored`, the logical content of `npControllerEEPROM`
on flash), and the EEPROM hardware's answer to a commit (`commitOk`). -/
structure MachineState where
  setting : npControllerSettingType
  colors : List colorType
  changeNeopixel : Bool
  actualFrame : Nat
  lastNeopixelRefresh : Nat
  stored : npControllerSettingType × List colorType
  commitOk : Bool
deriving DecidableEq, Repr

/-- Well-formedness maintained by the firmware: the colors array has the
declared length `COLOR_COUNT + 1` and the saved-color count never exceeds
the capacity `COLOR_COUNT`. -/
def wfState (s : MachineState) : Prop :=
  s.colors.length = COLOR_COUNT + 1 ∧ s.setting.colorCount ≤ COLOR_COUNT

instance (s : MachineState) : Decidable (wfState s) := by
  unfold wfState
  infer_instance

/-- Names of the compiled-in `effects[]` table (lines 174-186); the render
functions only drive the LED hardware, so just the identities are modelled. -/
def effects : List String :=
  ["rainbow", "rainbowGl", "confetti", "sinelon", "bpm", "juggle",
   "fire2012", "cylon", "sparkle", "snowspark", "meteor", "theatre"]

/-- ASCII `isxdigit` as used on the hex string in `checkValidColor`
(line 438): decimal digits 48-57, lowercase a-f 97-102, uppercase A-F 65-70. -/
def isxdigit (c : Char) : Bool :=
  (48 ≤ c.toNat && c.toNat ≤ 57) ||
  (97 ≤ c.toNat && c.toNat ≤ 102) ||
  (65 ≤ c.toNat && c.toNat ≤ 70)

/-- Numeric value of one hexadecimal digit character (either case), 0 on a
non-digit. -/
def hexVal (c : Char) : Nat :=
  if 48 ≤ c.toNat ∧ c.toNat ≤ 57 then c.toNat - 48
  else if 97 ≤ c.toNat ∧ c.toNat ≤ 102 then c.toNat - 87
  else if 65 ≤ c.toNat ∧ c.toNat ≤ 70 then c.toNat - 55
  else 0

/-- Accumulating scan of a maximal hex-digit run, the behaviour of
`sscanf(rgbHex, "%x", &rgb32)` on the digit strings this firmware feeds it
(every call site passes a NUL-terminated buffer whose leading characters are
hex digits). -/
def scanHexAux : List Char → Nat → Nat
  | [], acc => acc
  | c :: cs, acc => if isxdigit c then scanHexAux cs (16 * acc + hexVal c) else acc

/-- Model of `parseHexColor` (lines 427-433): read the string as a 32-bit hex
number and mask out the three colour bytes. -/
def parseHexColor (rgbHex : List Char) : Nat × Nat × Nat :=
  let rgb32 := scanHexAux rgbHex 0 % 2 ^ 32
  ((rgb32 &&& 0x00ff0000) >>> 16, (rgb32 &&& 0x0000ff00) >>> 8, rgb32 &&& 0x000000ff)

/-- Model of `checkValidColor` (lines 436-445) with its early returns: length
exactly 6, all hex digits, not decoding to black, brightness at most 100. -/
def checkValidColor (rgbHex : List Char) (brightness : Nat) : Bool :=
  if rgbHex.length ≠ 6 then false
  else if ¬ rgbHex.all isxdigit then false
  else
    let rgb := parseHexColor rgbHex
    if rgb.1 = 0 ∧ rgb.2.1 = 0 ∧ rgb.2.2 = 0 then false
    else if brightness > 100 then false
    else true

/-- Exact four-field comparison from the body of `findColor` (lines 460-463). -/
def colorMatches (c : colorType) (r0 r1 r2 b : Nat) : Bool :=
  c.brtns == b && c.rgb0 == r0 && c.rgb1 == r1 && c.rgb2 == r2

/-- Scanning loop of `findColor`: first index (starting at `i`) whose entry
matches, else `COLOR_COUNT`. -/
def findColorAux : List colorType → Nat → Nat → Nat → Nat → Nat → Nat
  | [], _, _, _, _, _ => COLOR_COUNT
  | c :: cs, r0, r1, r2, b, i =>
      if colorMatches c r0 r1 r2 b then i else findColorAux cs r0 r1 r2 b (i + 1)

/-- Model of `findColor` (lines 456-467): linear scan over the first
`colorCount` saved entries, returning `COLOR_COUNT` when no entry matches. -/
def findColor (cs : List colorType) (colorCount : Nat) (r0 r1 r2 b : Nat) : Nat :=
  findColorAux (cs.take colorCount) r0 r1 r2 b 0

/-- Model of `checkValidEffect` (lines 448-453): index of the first effect
whose name compares equal, `effects.length` (= 12) when none does. -/
def checkValidEffect (effectName : String) : Nat :=
  effects.findIdx (fun e => e == effectName)

/-- Model of `saveEEPROM` (lines 690-699): recompute the integrity check and
commit the whole record; the hardware's commit result is the `commitOk` input
of the state, and on success the committed copy is remembered in `stored`. -/
def saveEEPROM (s : MachineState) : Nat × MachineState :=
  if s.commitOk then (1, { s with stored := (s.setting, s.colors) }) else (0, s)

/-- Model of `resetColor` (lines 422-425): zero the three colour bytes and
the brightness of one entry. -/
def resetColor (_c : colorType) : colorType :=
  { rgb0 := 0, rgb1 := 0, rgb2 := 0, brtns := 0 }

/-- Model of `resetEEPROM` (lines 701-711): zero the saved slots
`0 .. COLOR_COUNT-1` (the loop bound is `i < COLOR_COUNT`), reset the
settings to count 0 / Off / index 0 / effect 0, and call `saveEEPROM`
(whose result is discarded, as in the `void` source function). -/
def resetEEPROM (s : MachineState) : MachineState :=
  let cs := (List.range COLOR_COUNT).foldl
    (fun l i => l.set i (resetColor (l.getD i default))) s.colors
  let s1 := { s with
    colors := cs,
    setting := { colorCount := 0, programState := .NEOPIXEL_OFF,
                 activeColor := 0, activeEffect := 0 } }
  (saveEEPROM s1).2

/-- Model of the EEPROM-loading branch of `setup()` (lines 754-773):
`loaded` is the record as read by `EEPROM.get`, and `crcOk` abstracts the
comparison of `calculateCRC32` over the raw struct bytes with the stored
`crc32` word (the byte-level serialisation is not representable here). On a
match the loaded record is adopted; on a mismatch `resetEEPROM` runs. -/
def setupLoad (loaded : MachineState) (crcOk : Bool) : MachineState :=
  if crcOk then loaded else resetEEPROM loaded

/-- Model of `colorRequest` (lines 323-342): validate, switch to colour mode,
raise the dirty flag, look the colour up, write it at the found slot (the
scratch slot `COLOR_COUNT` when not saved) and activate that slot. -/
def colorRequest (rgbHex : List Char) (brightness : Nat) (s : MachineState) :
    Nat × MachineState :=
  if checkValidColor rgbHex brightness then
    let s1 := { s with
      setting := { s.setting with programState := .NEOPIXEL_COLOR },
      changeNeopixel := true }
    let rgb := parseHexColor rgbHex
    let colorIndex := findColor s1.colors s1.setting.colorCount rgb.1 rgb.2.1 rgb.2.2 brightness
    (1, { s1 with
      colors := s1.colors.set colorIndex ⟨rgb.1, rgb.2.1, rgb.2.2, brightness⟩,
      setting := { s1.setting with activeColor := colorIndex } })
  else (0, s)

/-- Model of `saveRequest` (lines 366-388): full check first (result 4), then
validation (result 2 on failure), then duplicate check (result 3), then append
at index `colorCount`, increment the count and commit (result 0 or 1). -/
def saveRequest (rgbHex : List Char) (brightness : Nat) (s : MachineState) :
    Nat × MachineState :=
  if s.setting.colorCount == COLOR_COUNT then (4, s)
  else if checkValidColor rgbHex brightness then
    let rgb := parseHexColor rgbHex
    let colorIndex := findColor s.colors s.setting.colorCount rgb.1 rgb.2.1 rgb.2.2 brightness
    if colorIndex < COLOR_COUNT then (3, s)
    else
      saveEEPROM { s with
        colors := s.colors.set s.setting.colorCount ⟨rgb.1, rgb.2.1, rgb.2.2, brightness⟩,
        setting := { s.setting with colorCount := s.setting.colorCount + 1 } }
  else (2, s)

/-- Shifting loop of `deleteRequest` (lines 401-407): starting at `i`, each of
`fuel` iterations copies entry `i` down to `i - 1`; `deleteRequest` runs it
with `i = colorIndex + 1` and `fuel = colorCount - (colorIndex + 1)`,
matching `for (i = colorIndex+1; i < colorCount; i++)`. -/
def shiftColorsFuel : Nat → List colorType → Nat → List colorType
  | 0, cs, _ => cs
  | fuel + 1, cs, i => shiftColorsFuel fuel (cs.set (i - 1) (cs.getD i default)) (i + 1)

/-- Model of `deleteRequest` (lines 391-419): validate (result 2 on failure),
look the colour up (result 3 when absent), zero the found slot, shift later
entries down, fix up `activeColor`, decrement the count and commit. -/
def deleteRequest (rgbHex : List Char) (brightness : Nat) (s : MachineState) :
    Nat × MachineState :=
  if checkValidColor rgbHex brightness then
    let rgb := parseHexColor rgbHex
    let colorIndex := findColor s.colors s.setting.colorCount rgb.1 rgb.2.1 rgb.2.2 brightness
    if colorIndex == COLOR_COUNT then (3, s)
    else
      let cs1 := s.colors.set colorIndex (resetColor (s.colors.getD colorIndex default))
      let cs2 := shiftColorsFuel (s.setting.colorCount - (colorIndex + 1)) cs1 (colorIndex + 1)
      let newActive :=
        if s.setting.activeColor = colorIndex then 0
        else if s.setting.activeColor > colorIndex then s.setting.activeColor - 1
        else s.setting.activeColor
      let st := { s.setting with activeColor := newActive, colorCount := s.setting.colorCount - 1 }
      saveEEPROM { s with colors := cs2, setting := st }
  else (2, s)

/-- Model of `effectRequest` (lines 353-363): on a known name switch to effect
mode, raise the dirty flag and activate the matching index; otherwise return 0
without touching the state. -/
def effectRequest (effectName : String) (s : MachineState) : Nat × MachineState :=
  let effectIndex := checkValidEffect effectName
  if effectIndex < effects.length then
    let st := { s.setting with programState := TProgram_States.NEOPIXEL_EFFECT, activeEffect := effectIndex }
    (1, { s with setting := st, changeNeopixel := true })
  else (0, s)

/-- Model of the `NEOPIXEL_EFFECT` mode-entry portion of `loop()`
(lines 986-993): while the dirty flag is up in effect mode, the refresh
timestamp and the animation frame counter are reset to 0. -/
def loopEffectEntry (s : MachineState) : MachineState :=
  if s.setting.programState = .NEOPIXEL_EFFECT ∧ s.changeNeopixel then
    { s with lastNeopixelRefresh := 0, actualFrame := 0 }
  else s

/-- Model of `processClick` (lines 494-535): dirty flag first, `oldState`
captured before any mutation, then the long/single/double dispatch with the
early returns of the source rendered as nested conditionals. -/
def processClick (clickType : Nat) (s0 : MachineState) : MachineState :=
  let s := { s0 with changeNeopixel := true }
  let oldState := s.setting.programState
  if clickType = BUTTON_LONG_CLICK then
    { s with setting := { s.setting with programState := .NEOPIXEL_OFF } }
  else if clickType = BUTTON_SINGLE_CLICK then
    if s.setting.colorCount = 0 then s
    else
      let s1 := { s with setting := { s.setting with programState := .NEOPIXEL_COLOR } }
      if s1.setting.activeColor = COLOR_COUNT then
        { s1 with setting := { s1.setting with activeColor := 0 } }
      else if oldState = .NEOPIXEL_OFF ∨ oldState = .NEOPIXEL_EFFECT then s1
      else if s1.setting.activeColor = s1.setting.colorCount - 1 then
        { s1 with setting := { s1.setting with programState := .NEOPIXEL_OFF, activeColor := 0 } }
      else
        { s1 with setting := { s1.setting with activeColor := s1.setting.activeColor + 1 } }
  else if clickType = BUTTON_DOUBLE_CLICK then
    let s1 := { s with setting := { s.setting with programState := .NEOPIXEL_EFFECT } }
    if oldState = .NEOPIXEL_OFF ∨ oldState = .NEOPIXEL_COLOR then s1
    else if s1.setting.activeEffect = effects.length - 1 then
      { s1 with setting := { s1.setting with programState := .NEOPIXEL_OFF, activeEffect := 0 } }
    else
      { s1 with setting := { s1.setting with activeEffect := s1.setting.activeEffect + 1 } }
  else s

/-- Sample palette entry decoding "FF0000" at brightness 50, for concrete runs. -/
def sampleA : colorType := ⟨255, 0, 0, 50⟩

/-- Sample palette entry decoding "00FF00" at brightness 80, for concrete runs. -/
def sampleB : colorType := ⟨0, 255, 0, 80⟩

/-- Zeroed palette entry, the value `resetColor` leaves behind. -/
def blankColor : colorType := ⟨0, 0, 0, 0⟩

/-- Concrete colors array holding the two sample entries and nine blanks. -/
def pairColors : List colorType :=
  [sampleA, sampleB, blankColor, blankColor, blankColor, blankColor,
   blankColor, blankColor, blankColor, blankColor, blankColor]

/-- Concrete colors array with ten pairwise distinct saved entries (a full
palette) plus a blank scratch slot. -/
def tenColors : List colorType :=
  [⟨1, 0, 0, 10⟩, ⟨2, 0, 0, 10⟩, ⟨3, 0, 0, 10⟩, ⟨4, 0, 0, 10⟩, ⟨5, 0, 0, 10⟩,
   ⟨6, 0, 0, 10⟩, ⟨7, 0, 0, 10⟩, ⟨8, 0, 0, 10⟩, ⟨9, 0, 0, 10⟩, ⟨10, 0, 0, 10⟩,
   blankColor]

/-- Convenience constructor for concrete machine states used in witnesses:
the dirty flag starts low, counters at zero, an empty committed record, and
an EEPROM that accepts commits. -/
def mkState (colorCount : Nat) (ps : TProgram_States) (activeColor activeEffect : Nat)
    (cs : List colorType) : MachineState :=
  { setting := ⟨colorCount, ps, activeColor, activeEffect⟩, colors := cs,
    changeNeopixel := false, actualFrame := 0, lastNeopixelRefresh := 0,
    stored := (⟨0, .NEOPIXEL_OFF, 0, 0⟩, []), commitOk := true }

theorem take_set_of_le {α : Type} (l : List α) (n i : Nat) (a : α) (h : n ≤ i) :
    (l.set i a).take n = l.take n := by
  apply List.ext_getElem?
  intro m
  by_cases hm : m < n
  · have hne : i ≠ m := by omega
    simp [List.getElem?_take, hm, List.getElem?_set, hne]
  · simp [List.getElem?_take, hm]

theorem set_of_getElem_self {α : Type} (l : List α) (i : Nat) (a : α)
    (h : l[i]? = some a) : l.set i a = l := by
  induction l generalizing i with
  | nil => simp at h
  | cons x xs ih =>
    cases i with
    | zero => simp_all
    | succ n =>
      simp only [List.getElem?_cons_succ] at h
      simp [ih n h]

theorem colorMatches_eq_true_iff (c : colorType) (r0 r1 r2 b : Nat) :
    colorMatches c r0 r1 r2 b = true ↔ c = ⟨r0, r1, r2, b⟩ := by
  cases c
  simp only [colorMatches, Bool.and_eq_true, beq_iff_eq, colorType.mk.injEq]
  tauto

theorem findColorAux_spec (r0 r1 r2 b : Nat) :
    ∀ (l : List colorType) (i : Nat),
      (findColorAux l r0 r1 r2 b i = COLOR_COUNT ∧
        ∀ c ∈ l, colorMatches c r0 r1 r2 b = false) ∨
      (∃ k, k < l.length ∧ findColorAux l r0 r1 r2 b i = i + k ∧
        l[k]? = some ⟨r0, r1, r2, b⟩)
  | [], i => Or.inl ⟨rfl, by simp⟩
  | c :: cs, i => by
    by_cases hc : colorMatches c r0 r1 r2 b
    · right
      refine ⟨0, by simp, by simp [findColorAux, hc], ?_⟩
      simpa using (colorMatches_eq_true_iff c r0 r1 r2 b).mp hc
    · rcases findColorAux_spec r0 r1 r2 b cs (i + 1) with ⟨h1, h2⟩ | ⟨k, hk, heq, hget⟩
      · left
        refine ⟨by simp [findColorAux, hc, h1], ?_⟩
        intro x hx
        rcases List.mem_cons.mp hx with rfl | hx
        · simpa using hc
        · exact h2 x hx
      · right
        refine ⟨k + 1, by simpa using Nat.succ_lt_succ hk, ?_, by simpa using hget⟩
        simp [findColorAux, hc, heq]
        omega

theorem findColor_lt_or_default (cs : List colorType) (n r0 r1 r2 b : Nat) :
    findColor cs n r0 r1 r2 b = COLOR_COUNT ∨
    (findColor cs n r0 r1 r2 b < n ∧ findColor cs n r0 r1 r2 b < cs.length ∧
      cs[findColor cs n r0 r1 r2 b]? = some ⟨r0, r1, r2, b⟩) := by
  rcases findColorAux_spec r0 r1 r2 b (cs.take n) 0 with ⟨h1, _⟩ | ⟨k, hk, heq, hget⟩
  · left
    exact h1
  · right
    have hkn : k < n ∧ k < cs.length := by
      constructor <;> [skip; skip] <;> (simp [List.length_take] at hk; omega)
    have hfc : findColor cs n r0 r1 r2 b = k := by
      simpa [findColor] using heq
    have hcs : cs[k]? = some ⟨r0, r1, r2, b⟩ := by
      rw [List.getElem?_take] at hget
      simpa [hkn.1] using hget
    exact ⟨by omega, by omega, by rw [hfc]; exact hcs⟩

theorem shiftColorsFuel_length :
    ∀ (fuel : Nat) (cs : List colorType) (i : Nat),
      (shiftColorsFuel fuel cs i).length = cs.length
  | 0, cs, i => rfl
  | fuel + 1, cs, i => by
    simp [shiftColorsFuel, shiftColorsFuel_length fuel]

theorem shiftColorsFuel_getElem_low :
    ∀ (fuel : Nat) (cs : List colorType) (i j : Nat), j + 1 < i →
      (shiftColorsFuel fuel cs i)[j]? = cs[j]?
  | 0, cs, i, j, _ => rfl
  | fuel + 1, cs, i, j, h => by
    rw [shiftColorsFuel, shiftColorsFuel_getElem_low fuel _ _ _ (by omega)]
    have hne : i - 1 ≠ j := by omega
    simp [List.getElem?_set, hne]

theorem shiftColorsFuel_getElem_shift :
    ∀ (fuel : Nat) (cs : List colorType) (i j : Nat),
      1 ≤ i → i - 1 ≤ j → j + 1 < i + fuel → j + 1 < cs.length →
      (shiftColorsFuel fuel cs i)[j]? = cs[j + 1]?
  | 0, cs, i, j, h1, h2, h3, _ => by omega
  | fuel + 1, cs, i, j, h1, h2, h3, h4 => by
    rw [shiftColorsFuel]
    by_cases hj : j + 1 = i
    · have hlow : j + 1 < i + 1 := by omega
      rw [shiftColorsFuel_getElem_low fuel _ _ _ hlow]
      have hji : i - 1 = j := by omega
      have hjlen : j < cs.length := by omega
      rw [hji, List.getElem?_set, if_pos rfl]
      have hlen' : j < (cs.set j (cs.getD (j + 1) default)).length := by simpa using hjlen
      simp only [List.length_set, hjlen, if_true]
      rw [List.getD_eq_getElem?_getD, hj, List.getElem?_eq_getElem (by omega : i < cs.length)]
      simp [hj]
    · have hij : i ≤ j := by omega
      rw [shiftColorsFuel_getElem_shift fuel _ (i + 1) j (by omega) (by omega) (by omega)
        (by simpa using h4)]
      have hne : i - 1 ≠ j + 1 := by omega
      simp [List.getElem?_set, hne]

theorem exists_eleven (cs : List colorType) (h : cs.length = 11) :
    ∃ a0 a1 a2 a3 a4 a5 a6 a7 a8 a9 a10,
      cs = [a0, a1, a2, a3, a4, a5, a6, a7, a8, a9, a10] := by
  obtain ⟨a0, cs, rfl⟩ := List.exists_of_length_succ cs h
  simp only [List.length_cons, Nat.succ_inj] at h
  obtain ⟨a1, cs, rfl⟩ := List.exists_of_length_succ cs h
  simp only [List.length_cons, Nat.succ_inj] at h
  obtain ⟨a2, cs, rfl⟩ := List.exists_of_length_succ cs h
  simp only [List.length_cons, Nat.succ_inj] at h
  obtain ⟨a3, cs, rfl⟩ := List.exists_of_length_succ cs h
  simp only [List.length_cons, Nat.succ_inj] at h
  obtain ⟨a4, cs, rfl⟩ := List.exists_of_length_succ cs h
  simp only [List.length_cons, Nat.succ_inj] at h
  obtain ⟨a5, cs, rfl⟩ := List.exists_of_length_succ cs h
  simp only [List.length_cons, Nat.succ_inj] at h
  obtain ⟨a6, cs, rfl⟩ := List.exists_of_length_succ cs h
  simp only [List.length_cons, Nat.succ_inj] at h
  obtain ⟨a7, cs, rfl⟩ := List.exists_of_length_succ cs h
  simp only [List.length_cons, Nat.succ_inj] at h
  obtain ⟨a8, cs, rfl⟩ := List.exists_of_length_succ cs h
  simp only [List.length_cons, Nat.succ_inj] at h
  obtain ⟨a9, cs, rfl⟩ := List.exists_of_length_succ cs h
  simp only [List.length_cons, Nat.succ_inj] at h
  obtain ⟨a10, cs, rfl⟩ := List.exists_of_length_succ cs h
  simp only [List.length_cons, Nat.succ_inj] at h
  exact ⟨a0, a1, a2, a3, a4, a5, a6, a7, a8, a9, a10,
    by rw [List.length_eq_zero.mp h]⟩

/-- C1 (amended): on a checksum mismatch at boot the settings are reset to
count 0, mode Off, active color 0, active effect 0, every SAVED palette slot
`0 .. COLOR_COUNT-1` is zeroed, and the baseline is committed; the scratch
slot at index `COLOR_COUNT` is outside the reset loop and keeps whatever was
loaded from the corrupted record. -/
theorem claim_C1_reset_on_corruption (s : MachineState) (hlen : s.colors.length = 11)
    (hc : s.commitOk = true) :
    (setupLoad s false).setting = ⟨0, .NEOPIXEL_OFF, 0, 0⟩ ∧
    (∀ j, j < COLOR_COUNT → (setupLoad s false).colors[j]? = some blankColor) ∧
    (setupLoad s false).colors[COLOR_COUNT]? = s.colors[COLOR_COUNT]? ∧
    (setupLoad s false).stored = ((setupLoad s false).setting, (setupLoad s false).colors) := by
  obtain ⟨st, cs, dirty, af, lr, rec, cok⟩ := s
  simp only at hlen hc
  subst hc
  obtain ⟨a0, a1, a2, a3, a4, a5, a6, a7, a8, a9, a10, rfl⟩ := exists_eleven cs hlen
  refine ⟨rfl, ?_, rfl, rfl⟩
  intro j hj
  have hj10 : j < 10 := hj
  interval_cases j <;> rfl

/-- C1 witness: the amended statement evaluated on a concrete corrupt load. -/
theorem claim_C1_reset_on_corruption_witness :
    (setupLoad (mkState 5 .NEOPIXEL_COLOR 4 3 tenColors) false).setting =
        ⟨0, .NEOPIXEL_OFF, 0, 0⟩ ∧
    (∀ j, j < COLOR_COUNT →
      (setupLoad (mkState 5 .NEOPIXEL_COLOR 4 3 tenColors) false).colors[j]? =
        some blankColor) ∧
    (setupLoad (mkState 5 .NEOPIXEL_COLOR 4 3 tenColors) false).colors[COLOR_COUNT]? =
      (mkState 5 .NEOPIXEL_COLOR 4 3 tenColors).colors[COLOR_COUNT]? ∧
    (setupLoad (mkState 5 .NEOPIXEL_COLOR 4 3 tenColors) false).stored =
      ((setupLoad (mkState 5 .NEOPIXEL_COLOR 4 3 tenColors) false).setting,
       (setupLoad (mkState 5 .NEOPIXEL_COLOR 4 3 tenColors) false).colors) :=
  claim_C1_reset_on_corruption _ (by decide) rfl

/-- C1 counterexample: the claim as stated (every palette slot including the
scratch slot at index `COLOR_COUNT` is zeroed) is false — after a
checksum-mismatch boot on a record whose scratch slot held `⟨1,2,3,4⟩`, the
scratch slot still holds that loaded data, not the zero entry. -/
theorem claim_C1_counterexample :
    (setupLoad (mkState 5 .NEOPIXEL_COLOR 4 3
        [sampleA, sampleB, sampleA, sampleB, sampleA, sampleB, sampleA, sampleB,
         sampleA, sampleB, ⟨1, 2, 3, 4⟩]) false).colors[COLOR_COUNT]? ≠
      some blankColor := by
  decide

/-- C2: starting from palette `[A, B]` (count 2), mode Off, active color 0,
three single clicks produce mode Color / index 0, then mode Color / index 1,
then mode Off / index 0. -/
theorem claim_C2_click_sequence (A B : colorType) (rest : List colorType)
    (eff frame refresh : Nat) (dirty cok : Bool)
    (rec : npControllerSettingType × List colorType) :
    let s0 : MachineState :=
      { setting := ⟨2, .NEOPIXEL_OFF, 0, eff⟩, colors := A :: B :: rest,
        changeNeopixel := dirty, actualFrame := frame, lastNeopixelRefresh := refresh,
        stored := rec, commitOk := cok }
    let s1 := processClick BUTTON_SINGLE_CLICK s0
    let s2 := processClick BUTTON_SINGLE_CLICK s1
    let s3 := processClick BUTTON_SINGLE_CLICK s2
    (s1.setting.programState = .NEOPIXEL_COLOR ∧ s1.setting.activeColor = 0) ∧
    (s2.setting.programState = .NEOPIXEL_COLOR ∧ s2.setting.activeColor = 1) ∧
    (s3.setting.programState = .NEOPIXEL_OFF ∧ s3.setting.activeColor = 0) :=
  ⟨⟨rfl, rfl⟩, ⟨rfl, rfl⟩, ⟨rfl, rfl⟩⟩

/-- C3: whenever `colorCount == COLOR_COUNT`, `saveRequest` returns 4 (Full)
for every input string and brightness — malformed and duplicate inputs
included — and the state is returned unchanged. -/
theorem claim_C3_save_full_first (rgbHex : List Char) (brightness : Nat)
    (s : MachineState) (h : s.setting.colorCount = COLOR_COUNT) :
    saveRequest rgbHex brightness s = (4, s) := by
  simp [saveRequest, h]

/-- C3 witness: a full palette rejects even a malformed request unchanged. -/
theorem claim_C3_save_full_first_witness :
    saveRequest ['z', 'z', 'z', 'z'] 250 (mkState 10 .NEOPIXEL_OFF 0 0 tenColors) =
      (4, mkState 10 .NEOPIXEL_OFF 0 0 tenColors) :=
  claim_C3_save_full_first _ _ _ rfl

theorem saveEEPROM_setting (s : MachineState) : (saveEEPROM s).2.setting = s.setting := by
  rw [saveEEPROM]
  split <;> rfl

theorem saveEEPROM_colors (s : MachineState) : (saveEEPROM s).2.colors = s.colors := by
  rw [saveEEPROM]
  split <;> rfl

theorem saveEEPROM_fst_of_commitOk (s : MachineState) (h : s.commitOk = true) :
    (saveEEPROM s).1 = 1 := by
  simp [saveEEPROM, h]

theorem deleteRequest_found (rgbHex : List Char) (brightness : Nat) (s : MachineState)
    (i : Nat) (hv : checkValidColor rgbHex brightness = true)
    (hf : findColor s.colors s.setting.colorCount (parseHexColor rgbHex).1
      (parseHexColor rgbHex).2.1 (parseHexColor rgbHex).2.2 brightness = i)
    (hne : i ≠ COLOR_COUNT) :
    deleteRequest rgbHex brightness s =
      saveEEPROM { s with
        colors := shiftColorsFuel (s.setting.colorCount - (i + 1))
          (s.colors.set i (resetColor (s.colors.getD i default))) (i + 1),
        setting := { s.setting with
          activeColor := if s.setting.activeColor = i then 0
            else if s.setting.activeColor > i then s.setting.activeColor - 1
            else s.setting.activeColor,
          colorCount := s.setting.colorCount - 1 } } := by
  simp only [deleteRequest, hv, hf, if_true]
  have : (i == COLOR_COUNT) = false := by simpa using hne
  simp [this]

/-- C4: for every successful delete of the saved entry at index `i`: an
active index equal to `i` resets to 0, an active index above `i` is
decremented by one, and an active index below `i` is unchanged. -/
theorem claim_C4_delete_active_index (rgbHex : List Char) (brightness : Nat)
    (s : MachineState) (i : Nat) (hwf : wfState s)
    (hv : checkValidColor rgbHex brightness = true)
    (hf : findColor s.colors s.setting.colorCount (parseHexColor rgbHex).1
      (parseHexColor rgbHex).2.1 (parseHexColor rgbHex).2.2 brightness = i)
    (hi : i < s.setting.colorCount) (hcommit : s.commitOk = true) :
    (deleteRequest rgbHex brightness s).1 = 1 ∧
    (s.setting.activeColor = i →
      (deleteRequest rgbHex brightness s).2.setting.activeColor = 0) ∧
    (s.setting.activeColor > i →
      (deleteRequest rgbHex brightness s).2.setting.activeColor =
        s.setting.activeColor - 1) ∧
    (s.setting.activeColor < i →
      (deleteRequest rgbHex brightness s).2.setting.activeColor =
        s.setting.activeColor) := by
  have hne : i ≠ COLOR_COUNT := by
    have := hwf.2
    rw [COLOR_COUNT] at this ⊢
    omega
  rw [deleteRequest_found rgbHex brightness s i hv hf hne]
  refine ⟨saveEEPROM_fst_of_commitOk _ hcommit, ?_, ?_, ?_⟩
  · intro h
    rw [saveEEPROM_setting]
    simp [h]
  · intro h
    have h1 : ¬ s.setting.activeColor = i := by omega
    rw [saveEEPROM_setting]
    simp [h1, h]
  · intro h
    have h1 : ¬ s.setting.activeColor = i := by omega
    have h2 : ¬ s.setting.activeColor > i := by omega
    rw [saveEEPROM_setting]
    simp [h1, h2]

/-- C4 witness: deleting index 0 while index 1 is active decrements the
active index to 0. -/
theorem claim_C4_delete_active_index_witness :
    (deleteRequest ['f', 'f', '0', '0', '0', '0'] 50
      (mkState 2 .NEOPIXEL_COLOR 1 0 pairColors)).1 = 1 ∧
    ((mkState 2 .NEOPIXEL_COLOR 1 0 pairColors).setting.activeColor = 0 →
      (deleteRequest ['f', 'f', '0', '0', '0', '0'] 50
        (mkState 2 .NEOPIXEL_COLOR 1 0 pairColors)).2.setting.activeColor = 0) ∧
    ((mkState 2 .NEOPIXEL_COLOR 1 0 pairColors).setting.activeColor > 0 →
      (deleteRequest ['f', 'f', '0', '0', '0', '0'] 50
        (mkState 2 .NEOPIXEL_COLOR 1 0 pairColors)).2.setting.activeColor =
        (mkState 2 .NEOPIXEL_COLOR 1 0 pairColors).setting.activeColor - 1) ∧
    ((mkState 2 .NEOPIXEL_COLOR 1 0 pairColors).setting.activeColor < 0 →
      (deleteRequest ['f', 'f', '0', '0', '0', '0'] 50
        (mkState 2 .NEOPIXEL_COLOR 1 0 pairColors)).2.setting.activeColor =
        (mkState 2 .NEOPIXEL_COLOR 1 0 pairColors).setting.activeColor) :=
  claim_C4_delete_active_index _ _ _ 0 (by decide) (by decide) (by decide)
    (by decide) (by decide)

/-- C5: a successful delete at index `i` with `i + 1 < count` decrements the
count, leaves every entry below `i` at its index, and moves every entry that
was above `i` (and below the old count) down by exactly one slot. -/
theorem claim_C5_delete_preserves_order (rgbHex : List Char) (brightness : Nat)
    (s : MachineState) (i : Nat) (hwf : wfState s)
    (hv : checkValidColor rgbHex brightness = true)
    (hf : findColor s.colors s.setting.colorCount (parseHexColor rgbHex).1
      (parseHexColor rgbHex).2.1 (parseHexColor rgbHex).2.2 brightness = i)
    (hi : i + 1 < s.setting.colorCount) (hcommit : s.commitOk = true) :
    (deleteRequest rgbHex brightness s).1 = 1 ∧
    (deleteRequest rgbHex brightness s).2.setting.colorCount =
      s.setting.colorCount - 1 ∧
    (∀ j, j < i → (deleteRequest rgbHex brightness s).2.colors[j]? = s.colors[j]?) ∧
    (∀ j, i ≤ j → j + 1 < s.setting.colorCount →
      (deleteRequest rgbHex brightness s).2.colors[j]? = s.colors[j + 1]?) := by
  have hne : i ≠ COLOR_COUNT := by
    have := hwf.2
    rw [COLOR_COUNT] at this ⊢
    omega
  rw [deleteRequest_found rgbHex brightness s i hv hf hne]
  refine ⟨saveEEPROM_fst_of_commitOk _ hcommit, by rw [saveEEPROM_setting], ?_, ?_⟩
  · intro j hj
    rw [saveEEPROM_colors]
    show (shiftColorsFuel _ _ (i + 1))[j]? = _
    rw [shiftColorsFuel_getElem_low _ _ _ _ (by omega)]
    have hne2 : i ≠ j := by omega
    simp [List.getElem?_set, hne2]
  · intro j hij hjc
    rw [saveEEPROM_colors]
    show (shiftColorsFuel _ _ (i + 1))[j]? = _
    have hlen : j + 1 < (s.colors.set i (resetColor (s.colors.getD i default))).length := by
      rw [List.length_set]
      have h1 := hwf.1
      have h2 := hwf.2
      rw [COLOR_COUNT] at h1 h2
      omega
    rw [shiftColorsFuel_getElem_shift _ _ (i + 1) j (by omega) (by omega) (by omega) hlen]
    have hne2 : i ≠ j + 1 := by omega
    simp [List.getElem?_set, hne2]

/-- C5 witness: deleting index 0 of the two-entry palette moves entry 1 to
slot 0 and drops the count to 1. -/
theorem claim_C5_delete_preserves_order_witness :
    (deleteRequest ['f', 'f', '0', '0', '0', '0'] 50
      (mkState 2 .NEOPIXEL_OFF 0 0 pairColors)).1 = 1 ∧
    (deleteRequest ['f', 'f', '0', '0', '0', '0'] 50
      (mkState 2 .NEOPIXEL_OFF 0 0 pairColors)).2.setting.colorCount =
      (mkState 2 .NEOPIXEL_OFF 0 0 pairColors).setting.colorCount - 1 ∧
    (∀ j, j < 0 → (deleteRequest ['f', 'f', '0', '0', '0', '0'] 50
      (mkState 2 .NEOPIXEL_OFF 0 0 pairColors)).2.colors[j]? =
      (mkState 2 .NEOPIXEL_OFF 0 0 pairColors).colors[j]?) ∧
    (∀ j, 0 ≤ j → j + 1 < (mkState 2 .NEOPIXEL_OFF 0 0 pairColors).setting.colorCount →
      (deleteRequest ['f', 'f', '0', '0', '0', '0'] 50
        (mkState 2 .NEOPIXEL_OFF 0 0 pairColors)).2.colors[j]? =
      (mkState 2 .NEOPIXEL_OFF 0 0 pairColors).colors[j + 1]?) :=
  claim_C5_delete_preserves_order _ _ _ 0 (by decide) (by decide) (by decide)
    (by decide) (by decide)

/-- C9: deleting any saved entry while the scratch slot (index `COLOR_COUNT`)
is the active colour takes the greater-than decrement branch, so the active
index becomes `COLOR_COUNT - 1` = 9 and no longer designates the scratch
slot. -/
theorem claim_C9_delete_while_scratch_active (rgbHex : List Char) (brightness : Nat)
    (s : MachineState) (i : Nat) (hwf : wfState s)
    (hv : checkValidColor rgbHex brightness = true)
    (hf : findColor s.colors s.setting.colorCount (parseHexColor rgbHex).1
      (parseHexColor rgbHex).2.1 (parseHexColor rgbHex).2.2 brightness = i)
    (hi : i < s.setting.colorCount)
    (hact : s.setting.activeColor = COLOR_COUNT) (hcommit : s.commitOk = true) :
    (deleteRequest rgbHex brightness s).1 = 1 ∧
    (deleteRequest rgbHex brightness s).2.setting.activeColor = COLOR_COUNT - 1 ∧
    (deleteRequest rgbHex brightness s).2.setting.activeColor ≠ COLOR_COUNT := by
  have hcount := hwf.2
  rw [COLOR_COUNT] at hcount
  have hne : i ≠ COLOR_COUNT := by
    rw [COLOR_COUNT]
    omega
  have hilt : i < 10 := by omega
  rw [deleteRequest_found rgbHex brightness s i hv hf hne]
  have h1 : ¬ s.setting.activeColor = i := by
    rw [hact, COLOR_COUNT]
    omega
  have h2 : s.setting.activeColor > i := by
    rw [hact, COLOR_COUNT]
    omega
  refine ⟨saveEEPROM_fst_of_commitOk _ hcommit, ?_, ?_⟩
  · rw [saveEEPROM_setting]
    simp only [hact]
    rw [if_neg (by rw [COLOR_COUNT]; omega), if_pos (by rw [COLOR_COUNT]; omega)]
  · rw [saveEEPROM_setting]
    simp only [hact]
    rw [if_neg (by rw [COLOR_COUNT]; omega), if_pos (by rw [COLOR_COUNT]; omega)]
    rw [COLOR_COUNT]
    omega

/-- C9 witness: with a full palette, active colour at the scratch slot and a
delete of the first entry, the active index lands on 9 — which here equals
the new count, so it designates neither a saved entry nor the scratch slot. -/
theorem claim_C9_delete_while_scratch_active_witness :
    ((deleteRequest ['0', '1', '0', '0', '0', '0'] 10
        (mkState 10 .NEOPIXEL_COLOR 10 0 tenColors)).1 = 1 ∧
      (deleteRequest ['0', '1', '0', '0', '0', '0'] 10
        (mkState 10 .NEOPIXEL_COLOR 10 0 tenColors)).2.setting.activeColor =
        COLOR_COUNT - 1 ∧
      (deleteRequest ['0', '1', '0', '0', '0', '0'] 10
        (mkState 10 .NEOPIXEL_COLOR 10 0 tenColors)).2.setting.activeColor ≠
        COLOR_COUNT) ∧
    (deleteRequest ['0', '1', '0', '0', '0', '0'] 10
      (mkState 10 .NEOPIXEL_COLOR 10 0 tenColors)).2.setting.colorCount = 9 :=
  ⟨claim_C9_delete_while_scratch_active _ _ _ 0 (by decide) (by decide) (by decide)
    (by decide) (by decide) (by decide), by decide⟩

theorem colorRequest_valid (rgbHex : List Char) (brightness : Nat) (s : MachineState)
    (hv : checkValidColor rgbHex brightness = true) :
    colorRequest rgbHex brightness s =
      (1, { s with
        colors := s.colors.set (findColor s.colors s.setting.colorCount (parseHexColor rgbHex).1 (parseHexColor rgbHex).2.1 (parseHexColor rgbHex).2.2 brightness) ⟨(parseHexColor rgbHex).1, (parseHexColor rgbHex).2.1, (parseHexColor rgbHex).2.2, brightness⟩,
        setting := { s.setting with programState := .NEOPIXEL_COLOR, activeColor := findColor s.colors s.setting.colorCount (parseHexColor rgbHex).1 (parseHexColor rgbHex).2.1 (parseHexColor rgbHex).2.2 brightness },
        changeNeopixel := true }) := by
  simp only [colorRequest, hv, if_true]

/-- C6: for a valid colour string and brightness, applying `colorRequest`
twice with the same arguments produces exactly the same result (code and full
machine state) as applying it once. -/
theorem claim_C6_setcolor_idempotent (rgbHex : List Char) (brightness : Nat)
    (s : MachineState) (hwf : wfState s)
    (hv : checkValidColor rgbHex brightness = true) :
    colorRequest rgbHex brightness (colorRequest rgbHex brightness s).2 =
      colorRequest rgbHex brightness s := by
  obtain ⟨hlen, hcount⟩ := hwf
  rcases findColor_lt_or_default s.colors s.setting.colorCount (parseHexColor rgbHex).1
      (parseHexColor rgbHex).2.1 (parseHexColor rgbHex).2.2 brightness with
    hdef | ⟨hlt, hltlen, hget⟩
  · have htake := take_set_of_le s.colors s.setting.colorCount COLOR_COUNT
      (⟨(parseHexColor rgbHex).1, (parseHexColor rgbHex).2.1,
        (parseHexColor rgbHex).2.2, brightness⟩ : colorType) hcount
    have hfind2 : findColor
        (s.colors.set COLOR_COUNT ⟨(parseHexColor rgbHex).1, (parseHexColor rgbHex).2.1,
          (parseHexColor rgbHex).2.2, brightness⟩)
        s.setting.colorCount (parseHexColor rgbHex).1 (parseHexColor rgbHex).2.1
        (parseHexColor rgbHex).2.2 brightness = COLOR_COUNT := by
      unfold findColor at hdef ⊢
      rw [htake]
      exact hdef
    simp only [colorRequest_valid rgbHex brightness s hv, hdef]
    rw [colorRequest_valid rgbHex brightness _ hv]
    simp only [hfind2, List.set_set]
  · have hset := set_of_getElem_self s.colors _ _ hget
    simp only [colorRequest_valid rgbHex brightness s hv, hset]
    rw [colorRequest_valid rgbHex brightness _ hv]
    simp only [hset]

/-- C6 witness: idempotence evaluated at a concrete unsaved colour going to
the scratch slot. -/
theorem claim_C6_setcolor_idempotent_witness :
    colorRequest ['0', '0', 'f', 'f', '0', '0'] 80
        (colorRequest ['0', '0', 'f', 'f', '0', '0'] 80
          (mkState 1 .NEOPIXEL_OFF 0 0 pairColors)).2 =
      colorRequest ['0', '0', 'f', 'f', '0', '0'] 80
        (mkState 1 .NEOPIXEL_OFF 0 0 pairColors) :=
  claim_C6_setcolor_idempotent _ _ _ (by decide) (by decide)

/-- C8: a valid `colorRequest` never changes `colorCount` nor any saved
palette entry below the count — a found entry is overwritten with its own
values and an unknown colour only writes the scratch slot. -/
theorem claim_C8_setcolor_preserves_saved (rgbHex : List Char) (brightness : Nat)
    (s : MachineState) (hwf : wfState s)
    (hv : checkValidColor rgbHex brightness = true) :
    (colorRequest rgbHex brightness s).2.setting.colorCount = s.setting.colorCount ∧
    ∀ j, j < s.setting.colorCount →
      (colorRequest rgbHex brightness s).2.colors[j]? = s.colors[j]? := by
  obtain ⟨hlen, hcount⟩ := hwf
  rw [colorRequest_valid rgbHex brightness s hv]
  refine ⟨rfl, ?_⟩
  intro j hj
  rcases findColor_lt_or_default s.colors s.setting.colorCount (parseHexColor rgbHex).1
      (parseHexColor rgbHex).2.1 (parseHexColor rgbHex).2.2 brightness with
    hdef | ⟨hlt, hltlen, hget⟩
  · rw [hdef]
    have hne : COLOR_COUNT ≠ j := by
      rw [COLOR_COUNT] at hcount ⊢
      omega
    simp [List.getElem?_set, hne]
  · rw [set_of_getElem_self s.colors _ _ hget]

/-- C8 witness: setting an already-saved colour leaves count and both saved
entries untouched. -/
theorem claim_C8_setcolor_preserves_saved_witness :
    (colorRequest ['f', 'f', '0', '0', '0', '0'] 50
      (mkState 2 .NEOPIXEL_OFF 0 0 pairColors)).2.setting.colorCount =
      (mkState 2 .NEOPIXEL_OFF 0 0 pairColors).setting.colorCount ∧
    ∀ j, j < (mkState 2 .NEOPIXEL_OFF 0 0 pairColors).setting.colorCount →
      (colorRequest ['f', 'f', '0', '0', '0', '0'] 50
        (mkState 2 .NEOPIXEL_OFF 0 0 pairColors)).2.colors[j]? =
      (mkState 2 .NEOPIXEL_OFF 0 0 pairColors).colors[j]? :=
  claim_C8_setcolor_preserves_saved _ _ _ (by decide) (by decide)

/-- C7: an effect name matching a compiled-in descriptor switches to effect
mode, activates exactly the matching descriptor's index, raises the dirty
flag, and the next pass of the loop's effect branch resets the animation
frame counter to 0; a non-matching name returns 0 with the state untouched. -/
theorem claim_C7_seteffect (effectName : String) (s : MachineState) :
    (effectName ∈ effects →
      (effectRequest effectName s).1 = 1 ∧
      (effectRequest effectName s).2.setting.programState = .NEOPIXEL_EFFECT ∧
      effects[(effectRequest effectName s).2.setting.activeEffect]? = some effectName ∧
      (effectRequest effectName s).2.changeNeopixel = true ∧
      (loopEffectEntry (effectRequest effectName s).2).actualFrame = 0) ∧
    (effectName ∉ effects → effectRequest effectName s = (0, s)) := by
  constructor
  · intro hmem
    fin_cases hmem <;> exact ⟨rfl, rfl, rfl, rfl, rfl⟩
  · intro hmem
    have hidx : checkValidEffect effectName = effects.length := by
      rw [checkValidEffect, List.findIdx_eq_length]
      intro x hx
      have hne : x ≠ effectName := fun h => hmem (h ▸ hx)
      simpa using hne
    simp [effectRequest, hidx]

/-- C7 witness: the matching branch evaluated at "juggle" (descriptor index 5)
and the non-matching branch at a bogus name, on a concrete state. -/
theorem claim_C7_seteffect_witness :
    ((effectRequest "juggle" (mkState 2 .NEOPIXEL_OFF 0 0 pairColors)).1 = 1 ∧
      (effectRequest "juggle"
        (mkState 2 .NEOPIXEL_OFF 0 0 pairColors)).2.setting.programState =
        .NEOPIXEL_EFFECT ∧
      effects[(effectRequest "juggle"
        (mkState 2 .NEOPIXEL_OFF 0 0 pairColors)).2.setting.activeEffect]? =
        some "juggle" ∧
      (effectRequest "juggle"
        (mkState 2 .NEOPIXEL_OFF 0 0 pairColors)).2.changeNeopixel = true ∧
      (loopEffectEntry (effectRequest "juggle"
        (mkState 2 .NEOPIXEL_OFF 0 0 pairColors)).2).actualFrame = 0) ∧
    effectRequest "warpdrive" (mkState 2 .NEOPIXEL_OFF 0 0 pairColors) =
      (0, mkState 2 .NEOPIXEL_OFF 0 0 pairColors) :=
  ⟨(claim_C7_seteffect "juggle" (mkState 2 .NEOPIXEL_OFF 0 0 pairColors)).1 (by decide),
   (claim_C7_seteffect "warpdrive" (mkState 2 .NEOPIXEL_OFF 0 0 pairColors)).2 (by decide)⟩

theorem toNat_ofNat_of_isValidChar (n : Nat) (h : n.isValidChar) :
    (Char.ofNat n).toNat = n := by
  simp [Char.ofNat, h, Char.toNat]
  rfl

theorem toNat_toUpper (c : Char) :
    (Char.toUpper c).toNat =
      if 97 ≤ c.toNat ∧ c.toNat ≤ 122 then c.toNat - 32 else c.toNat := by
  simp only [Char.toUpper]
  by_cases h : c.toNat ≥ 97 ∧ c.toNat ≤ 122
  · rw [if_pos h, if_pos ⟨h.1, h.2⟩]
    exact toNat_ofNat_of_isValidChar _ (Or.inl (by omega))
  · rw [if_neg h, if_neg (fun hh => h ⟨hh.1, hh.2⟩)]

theorem hexVal_toUpper (c : Char) : hexVal (Char.toUpper c) = hexVal c := by
  unfold hexVal
  rw [toNat_toUpper c]
  split_ifs <;> omega

theorem isxdigit_toUpper (c : Char) : isxdigit (Char.toUpper c) = isxdigit c := by
  unfold isxdigit
  rw [toNat_toUpper c, Bool.eq_iff_iff]
  simp only [Bool.or_eq_true, Bool.and_eq_true, decide_eq_true_eq]
  split_ifs with hA
  · constructor <;> intro hh <;> omega
  · exact Iff.rfl

theorem scanHexAux_map_toUpper : ∀ (l : List Char) (acc : Nat),
    scanHexAux (l.map Char.toUpper) acc = scanHexAux l acc
  | [], _ => rfl
  | c :: cs, acc => by
    simp only [List.map_cons, scanHexAux, isxdigit_toUpper, hexVal_toUpper]
    split_ifs with h
    · exact scanHexAux_map_toUpper cs _
    · rfl

theorem parseHexColor_map_toUpper (l : List Char) :
    parseHexColor (l.map Char.toUpper) = parseHexColor l := by
  unfold parseHexColor
  rw [scanHexAux_map_toUpper]

theorem checkValidColor_map_toUpper (l : List Char) (b : Nat) :
    checkValidColor (l.map Char.toUpper) b = checkValidColor l b := by
  unfold checkValidColor
  have hfun : isxdigit ∘ Char.toUpper = isxdigit := funext fun c => isxdigit_toUpper c
  rw [List.length_map, List.all_map, parseHexColor_map_toUpper, hfun]

/-- C10: validation accepts lowercase and uppercase hex digits, the parser
decodes a string and its uppercased form to the same RGB triple, and
consequently `colorRequest`, `saveRequest` and `deleteRequest` (duplicate
detection included) behave identically on differently-cased spellings of the
same colour, e.g. "ff00aa" and "FF00AA". -/
theorem claim_C10_case_insensitive (rgbHex : List Char) (brightness : Nat)
    (s : MachineState) :
    isxdigit 'a' = true ∧ isxdigit 'A' = true ∧
    ['f', 'f', '0', '0', 'a', 'a'].map Char.toUpper =
      ['F', 'F', '0', '0', 'A', 'A'] ∧
    parseHexColor (rgbHex.map Char.toUpper) = parseHexColor rgbHex ∧
    checkValidColor (rgbHex.map Char.toUpper) brightness =
      checkValidColor rgbHex brightness ∧
    colorRequest (rgbHex.map Char.toUpper) brightness s =
      colorRequest rgbHex brightness s ∧
    saveRequest (rgbHex.map Char.toUpper) brightness s =
      saveRequest rgbHex brightness s ∧
    deleteRequest (rgbHex.map Char.toUpper) brightness s =
      deleteRequest rgbHex brightness s := by
  refine ⟨rfl, rfl, by decide, parseHexColor_map_toUpper rgbHex,
    checkValidColor_map_toUpper rgbHex brightness, ?_, ?_, ?_⟩
  · unfold colorRequest
    rw [checkValidColor_map_toUpper, parseHexColor_map_toUpper]
  · unfold saveRequest
    rw [checkValidColor_map_toUpper, parseHexColor_map_toUpper]
  · unfold deleteRequest
    rw [checkValidColor_map_toUpper, parseHexColor_map_toUpper]

/-- C2 witness: the click sequence evaluated on the concrete two-entry
palette. -/
theorem claim_C2_click_sequence_witness :
    ((processClick BUTTON_SINGLE_CLICK
        (mkState 2 .NEOPIXEL_OFF 0 0 pairColors)).setting.programState =
      .NEOPIXEL_COLOR ∧
    (processClick BUTTON_SINGLE_CLICK
        (mkState 2 .NEOPIXEL_OFF 0 0 pairColors)).setting.activeColor = 0) ∧
    (processClick BUTTON_SINGLE_CLICK (processClick BUTTON_SINGLE_CLICK
        (mkState 2 .NEOPIXEL_OFF 0 0 pairColors))).setting.activeColor = 1 ∧
    (processClick BUTTON_SINGLE_CLICK (processClick BUTTON_SINGLE_CLICK
        (processClick BUTTON_SINGLE_CLICK
          (mkState 2 .NEOPIXEL_OFF 0 0 pairColors)))).setting.programState =
      .NEOPIXEL_OFF := by
  have h := claim_C2_click_sequence sampleA sampleB
    [blankColor, blankColor, blankColor, blankColor, blankColor, blankColor,
     blankColor, blankColor, blankColor]
    0 0 0 false true (⟨0, .NEOPIXEL_OFF, 0, 0⟩, [])
  exact ⟨⟨h.1.1, h.1.2⟩, h.2.1.2, h.2.2.1⟩

/-- C10 witness: the case-insensitivity conjunction evaluated at "ff00aa"
against "FF00AA" on a concrete state. -/
theorem claim_C10_case_insensitive_witness :
    isxdigit 'a' = true ∧ isxdigit 'A' = true ∧
    ['f', 'f', '0', '0', 'a', 'a'].map Char.toUpper =
      ['F', 'F', '0', '0', 'A', 'A'] ∧
    parseHexColor (['f', 'f', '0', '0', 'a', 'a'].map Char.toUpper) =
      parseHexColor ['f', 'f', '0', '0', 'a', 'a'] ∧
    checkValidColor (['f', 'f', '0', '0', 'a', 'a'].map Char.toUpper) 50 =
      checkValidColor ['f', 'f', '0', '0', 'a', 'a'] 50 ∧
    colorRequest (['f', 'f', '0', '0', 'a', 'a'].map Char.toUpper) 50
        (mkState 2 .NEOPIXEL_OFF 0 0 pairColors) =
      colorRequest ['f', 'f', '0', '0', 'a', 'a'] 50
        (mkState 2 .NEOPIXEL_OFF 0 0 pairColors) ∧
    saveRequest (['f', 'f', '0', '0', 'a', 'a'].map Char.toUpper) 50
        (mkState 2 .NEOPIXEL_OFF 0 0 pairColors) =
      saveRequest ['f', 'f', '0', '0', 'a', 'a'] 50
        (mkState 2 .NEOPIXEL_OFF 0 0 pairColors) ∧
    deleteRequest (['f', 'f', '0', '0', 'a', 'a'].map Char.toUpper) 50
        (mkState 2 .NEOPIXEL_OFF 0 0 pairColors) =
      deleteRequest ['f', 'f', '0', '0', 'a', 'a'] 50
        (mkState 2 .NEOPIXEL_OFF 0 0 pairColors) :=
  claim_C10_case_insensitive ['f', 'f', '0', '0', 'a', 'a'] 50
    (mkState 2 .NEOPIXEL_OFF 0 0 pairColors)
